import Mathlib

/-!
Verification of the prayer-times Telegram bot (`src/bot.py`).

The development shallowly embeds the program's pure core and its handler
logic:

* `parseHHMM` models `datetime.strptime(s, "%H:%M").time()` (success/failure
  and the parsed hour/minute).
* Clock instants are naive local datetimes measured in whole seconds after
  midnight of the reference day `today`; Fajr is anchored to `today + 1 day`
  (86400 seconds later), exactly as `datetime.combine(today/tomorrow, ...)`
  does in the source.  All arithmetic the source performs on these datetimes
  (`-`, `+`, `/ 2`, `/ 6`) is exact at whole-second resolution for inputs of
  minute precision, because the durations involved are whole numbers of
  minutes (60·k seconds is divisible by both 2 and 6), so `Nat` arithmetic
  reproduces CPython `timedelta` arithmetic on every reachable input.
* `calculate_times` returns `Option Schedule`; `none` models the empty dict
  `{}` the Python function returns when a key is missing or unparsable.
* `get_prayer_times` is modelled over an abstract `ApiResult` describing the
  observable outcome of the single `requests.get` call; the handlers are pure
  state transformers over `BotState` (the two module-level dicts) that also
  return the list of replies they emit.
-/

set_option autoImplicit false

namespace Bot

/-- Numeric value of an ASCII digit character, `none` for any other character
(the `\d` atoms in CPython's `_strptime` regex). -/
def digitVal (c : Char) : Option Nat :=
  if c.isDigit then some (c.toNat - 48) else none

/-- One numeric field of `strptime "%H:%M"`: one or two digits, nothing else. -/
def parseField : List Char → Option Nat
  | [c] => digitVal c
  | [c1, c2] => do
    let d1 ← digitVal c1
    let d2 ← digitVal c2
    pure (10 * d1 + d2)
  | _ => none

/-- Split a character list on a separator character (maximal runs between
separators; lists the empty run before/after a leading/trailing separator). -/
def splitOnChar (sep : Char) : List Char → List (List Char)
  | [] => [[]]
  | c :: cs =>
    match splitOnChar sep cs with
    | [] => if c = sep then [[], [c]] else [[c]]
    | g :: gs => if c = sep then [] :: g :: gs else (c :: g) :: gs

/-- `datetime.strptime(s, "%H:%M")`, restricted to the hour/minute it yields:
a 1–2 digit hour in `0..23`, a literal colon, a 1–2 digit minute in `0..59`,
and no surrounding characters.  `none` models the `ValueError` the source
catches (src/bot.py:90–98). -/
def parseHHMM (s : String) : Option (Nat × Nat) :=
  match splitOnChar ':' s.data with
  | [hs, ms] => do
    let h ← parseField hs
    let m ← parseField ms
    if h ≤ 23 ∧ m ≤ 59 then pure (h, m) else none
  | _ => none

/-- Seconds after midnight of the reference day for a clock time anchored to
`today` (src/bot.py:90–91). -/
def anchorTodayS (h m : Nat) : Nat := 60 * (60 * h + m)

/-- Seconds after midnight of the reference day for a clock time anchored to
`tomorrow` (src/bot.py:94). -/
def anchorTomorrowS (h m : Nat) : Nat := 86400 + 60 * (60 * h + m)

/-- `night_duration = fajr_dt - maghrib_dt` in seconds (src/bot.py:101). -/
def nightDurationS (mh mm fh fm : Nat) : Nat :=
  anchorTomorrowS fh fm - anchorTodayS mh mm

/-- `midnight_dt = maghrib_dt + night_duration / 2` in seconds
(src/bot.py:104–105).  The duration is a whole number of minutes, so the
`Nat` division is exact, as CPython's `timedelta / 2` is here. -/
def islamicMidnightS (mh mm fh fm : Nat) : Nat :=
  anchorTodayS mh mm + nightDurationS mh mm fh fm / 2

/-- `sleep_dt = fajr_dt - night_duration / 6` in seconds (src/bot.py:112–113).
`60·k / 6 = 10·k`, so the `Nat` division is again exact. -/
def sleepSuggestionS (mh mm fh fm : Nat) : Nat :=
  anchorTomorrowS fh fm - nightDurationS mh mm fh fm / 6

/-- Two-digit zero-padded decimal rendering (the `%H`/`%M` fields). -/
def fmt2 (n : Nat) : String :=
  if n < 10 then "0" ++ toString n else toString n

/-- `strftime("%H:%M")` on the naive datetime `secs` seconds after midnight of
the reference day: only the time-of-day component is shown. -/
def fmtHM (secs : Nat) : String :=
  let s := secs % 86400
  fmt2 (s / 3600) ++ ":" ++ fmt2 (s % 3600 / 60)

/-- `str(timedelta).split('.')[0]` for a nonnegative whole-second duration:
unpadded hours, two-digit minutes and seconds, and a `N day(s), ` prefix once
the duration reaches 24 hours (src/bot.py:120). -/
def fmtTimedelta (secs : Nat) : String :=
  let days := secs / 86400
  let rem := secs % 86400
  let core :=
    toString (rem / 3600) ++ ":" ++ fmt2 (rem % 3600 / 60) ++ ":" ++ fmt2 (rem % 60)
  if days = 0 then core
  else if days = 1 then "1 day, " ++ core
  else toString days ++ " days, " ++ core

/-- The `timings` dict as `calculate_times` consumes it: each of the three
keys the function reads is either present with a string value or absent
(`none`, the `KeyError` case). -/
structure Timings where
  Maghrib : Option String
  Isha : Option String
  Fajr : Option String
  deriving DecidableEq

/-- The dict returned by a successful `calculate_times` call
(src/bot.py:116–124), every value already formatted for display. -/
structure Schedule where
  Maghrib : String
  Isha : String
  Fajr : String
  Night_Duration : String
  Islamic_Midnight : String
  Wake_Up_Suggestion : String
  Sleep_Suggestion : String
  deriving DecidableEq

/-- `calculate_times` (src/bot.py:68–124).  `none` models the empty dict `{}`
returned when a key is missing or a value fails `strptime` parsing. -/
def calculate_times (timings : Timings) : Option Schedule := do
  let maghrib_time_str ← timings.Maghrib
  let isha_time_str ← timings.Isha
  let fajr_time_str ← timings.Fajr
  let m ← parseHHMM maghrib_time_str
  let i ← parseHHMM isha_time_str
  let f ← parseHHMM fajr_time_str
  pure
    { Maghrib := fmtHM (anchorTodayS m.1 m.2)
      Isha := fmtHM (anchorTodayS i.1 i.2)
      Fajr := fmtHM (anchorTomorrowS f.1 f.2)
      Night_Duration := fmtTimedelta (nightDurationS m.1 m.2 f.1 f.2)
      Islamic_Midnight := fmtHM (islamicMidnightS m.1 m.2 f.1 f.2)
      Wake_Up_Suggestion := fmtHM (islamicMidnightS m.1 m.2 f.1 f.2)
      Sleep_Suggestion := fmtHM (sleepSuggestionS m.1 m.2 f.1 f.2) }

/-- The `"timings"` entry of a truthy `"data"` dict, as the check
`data["data"].get("timings")` observes it (src/bot.py:58). -/
inductive TimingsField where
  /-- `"timings"` absent, or present with a falsy value (`None`, `{}`, `0`,
  `""`, `[]`): the `and`-chain is falsy and the function returns `None`. -/
  | missingOrFalsy : TimingsField
  /-- `"timings"` present with a truthy non-mapping value (a number, string
  or list): the `and`-chain is truthy and `data["data"]["timings"]` is
  returned as-is; `calculate_times` would then raise an uncaught `TypeError`
  on `timings["Maghrib"]`. -/
  | truthyNonDict : TimingsField
  /-- `"timings"` present with a truthy (non-empty) mapping; `t` records the
  three entries `calculate_times` reads. -/
  | timings : Timings → TimingsField
  deriving DecidableEq

/-- The `"data"` entry of a truthy top-level dict, as `data.get("data")` /
`data["data"]` observe it (src/bot.py:58–59). -/
inductive DataField where
  /-- `"data"` absent, or present with a falsy value: the `and`-chain
  short-circuits and the function returns `None`. -/
  | missingOrFalsy : DataField
  /-- `"data"` present with a truthy non-dict value (e.g. `7`, `"x"`,
  `[1]`): `data["data"].get("timings")` raises `AttributeError`, which the
  `except requests.exceptions.RequestException` clause does not catch — the
  exception escapes `get_prayer_times`. -/
  | truthyNonDict : DataField
  | dict : TimingsField → DataField
  deriving DecidableEq

/-- The decoded (or undecodable) HTTP response body, classified by exactly
the observations src/bot.py:56–59 makes of it. -/
inductive ApiBody where
  /-- A body `response.json()` cannot decode (malformed JSON or an empty
  body); the resulting `JSONDecodeError` is a `RequestException` and is
  caught (src/bot.py:56, 64). -/
  | malformed : ApiBody
  /-- A falsy decoded top-level value (`None`, `{}`, `[]`, `""`, `0`):
  `data and ...` short-circuits and the function returns `None`. -/
  | falsyTop : ApiBody
  /-- A truthy decoded non-dict top-level value (e.g. `"x"`, `[1]`, `5`):
  `data.get("data")` raises `AttributeError`, uncaught — the exception
  escapes `get_prayer_times`. -/
  | truthyNonDict : ApiBody
  /-- A truthy decoded top-level dict, with its `"data"` entry. -/
  | dict : DataField → ApiBody
  deriving DecidableEq

/-- Outcome of the one `requests.get` call in `get_prayer_times`
(src/bot.py:54–56), as observable at that call site: either some
`requests.exceptions.RequestException` was raised (network failure, DNS
error, and so on), or a response with an HTTP status code and a body
arrived. -/
inductive ApiResult where
  /-- `requests.get` itself raised a `RequestException`. -/
  | netFailure : ApiResult
  | response : Nat → ApiBody → ApiResult
  deriving DecidableEq

/-- What a call to `get_prayer_times` does, as its caller observes it. -/
inductive FetchResult where
  /-- Returns a truthy `"timings"` mapping. -/
  | success : Timings → FetchResult
  /-- Returns a truthy non-mapping `"timings"` value as-is. -/
  | successNonMapping : FetchResult
  /-- Returns `None`. -/
  | unavailable : FetchResult
  /-- An uncaught exception (`AttributeError` at src/bot.py:58) propagates
  past the function's boundary. -/
  | raised : FetchResult
  deriving DecidableEq

/-- `get_prayer_times` (src/bot.py:39–66).  `response.raise_for_status()`
raises exactly for client-error (4xx) and server-error (5xx) status codes
(before the body is read); the raised `HTTPError` is a `RequestException`
and is caught, yielding `None`.  For statuses outside 400–599 the body is
decoded and the `data and data.get("data") and data["data"].get("timings")`
chain is evaluated; truthy non-dict values at the top level or in `"data"`
make `.get` raise an uncaught `AttributeError`. -/
def get_prayer_times (r : ApiResult) : FetchResult :=
  match r with
  | .netFailure => .unavailable
  | .response status body =>
    if 400 ≤ status ∧ status < 600 then .unavailable
    else
      match body with
      | .malformed => .unavailable
      | .falsyTop => .unavailable
      | .truthyNonDict => .raised
      | .dict .missingOrFalsy => .unavailable
      | .dict .truthyNonDict => .raised
      | .dict (.dict .missingOrFalsy) => .unavailable
      | .dict (.dict .truthyNonDict) => .successNonMapping
      | .dict (.dict (.timings t)) => .success t

/-- `pre` is a prefix of `s`, over character lists. -/
def hasPrefixChars : List Char → List Char → Bool
  | [], _ => true
  | _ :: _, [] => false
  | c :: cs, d :: ds => c == d && hasPrefixChars cs ds

/-- Python `s.startswith(pre)`. -/
def pyStartswith (s pre : String) : Bool :=
  hasPrefixChars pre.data s.data

/-- The characters Python `str.isspace()` holds (and `str.strip()` with no
argument removes): `\t\n\v\f\r`, `\x1c`–`\x1f`, space, next line, and the
Unicode space separators. -/
def pyIsSpace (c : Char) : Bool :=
  (9 ≤ c.toNat && c.toNat ≤ 13) || (28 ≤ c.toNat && c.toNat ≤ 31) ||
  c.toNat == 32 || c.toNat == 133 || c.toNat == 160 || c.toNat == 5760 ||
  (8192 ≤ c.toNat && c.toNat ≤ 8202) || c.toNat == 8232 || c.toNat == 8233 ||
  c.toNat == 8239 || c.toNat == 8287 || c.toNat == 12288

/-- Python `s.strip()`: remove leading and trailing whitespace. -/
def pyStrip (s : String) : String :=
  String.mk (((s.data.dropWhile pyIsSpace).reverse.dropWhile pyIsSpace).reverse)

/-- A saved `{'city': ..., 'country': ...}` value in `user_locations`
(src/bot.py:13, 240). -/
structure Location where
  city : String
  country : String
  deriving DecidableEq

/-- The two module-level dicts (src/bot.py:13, 17), modelled as association
lists; `List.lookup` gives the dict-lookup view. -/
structure BotState where
  user_locations : List (Nat × Location)
  users_awaiting_city : List (Nat × String)
  deriving DecidableEq

/-- Dict assignment `d[k] = v`: afterwards `k` maps to `v` and every other
key is unchanged. -/
def dictSet {α : Type} (k : Nat) (v : α) (d : List (Nat × α)) : List (Nat × α) :=
  (k, v) :: d.filter (fun p => p.1 != k)

/-- Dict removal, as performed by `d.pop(k)`: every entry for `k` is gone. -/
def dictDel {α : Type} (k : Nat) (d : List (Nat × α)) : List (Nat × α) :=
  d.filter (fun p => p.1 != k)

/-- Which user-visible message a reply carries.  Each constructor stands for
one reply literal of the source (the literals are Arabic text; only their
identity and parameters matter here). -/
inductive Msg where
  /-- Welcome text of `/start` (src/bot.py:142–144). -/
  | welcome : Msg
  /-- "Choose a country first" with the country keyboard (src/bot.py:145–148). -/
  | chooseCountry : Msg
  /-- "You chose {country}, now send a city" (src/bot.py:177–180). -/
  | chosenCountryAskCity : String → Msg
  /-- "No saved location yet, use /start" (src/bot.py:154–156). -/
  | noSavedLocation : Msg
  /-- "Searching for prayer times in your saved location {city}, {country}"
  (src/bot.py:163). -/
  | searchingSaved : String → String → Msg
  /-- "Your location {city}, {country} was saved" (src/bot.py:242). -/
  | savedLocation : String → String → Msg
  /-- "Searching for prayer times in {city}, {country}" (src/bot.py:243). -/
  | searching : String → String → Msg
  /-- InputUnavailable: "could not find prayer times for {city}, {country}"
  (src/bot.py:187–189). -/
  | unavailable : String → String → Msg
  /-- ComputationFailure: "error processing the retrieved prayer times"
  (src/bot.py:196–198). -/
  | processingError : Msg
  /-- The formatted results message (src/bot.py:202–215). -/
  | results : String → String → Schedule → Msg
  /-- The `/help` text (src/bot.py:219–228). -/
  | helpText : Msg
  /-- Fallback guidance for free text with no pending selection
  (src/bot.py:249–251). -/
  | useStartFirst : Msg
  deriving DecidableEq

/-- A reply produced by a handler: a sent text message or an edit of the
button message. -/
inductive Reply where
  | sent : Msg → Reply
  | edited : Msg → Reply
  deriving DecidableEq

/-- `fetch_and_send_times` (src/bot.py:182–215): fetch, compute, and reply.
The `ApiResult` argument is the outcome of the network call the function
makes; the function never mutates either dict, so the state is returned
unchanged in every branch.  The pair records the final state and the replies
actually sent: when `get_prayer_times` raises, or returns a truthy
non-mapping on which `calculate_times` raises `TypeError`, the exception
propagates past this function after zero replies, hence `(st, [])` in those
branches (earlier replies of the calling handler were already sent). -/
def fetch_and_send_times (st : BotState) (api : ApiResult) (city country : String) :
    BotState × List Reply :=
  match get_prayer_times api with
  | .raised => (st, [])
  | .unavailable => (st, [.sent (.unavailable city country)])
  | .successNonMapping => (st, [])
  | .success timings =>
    match calculate_times timings with
    | none => (st, [.sent .processingError])
    | some results => (st, [.sent (.results city country results)])

/-- `/start` handler (src/bot.py:128–148): greets and shows the country
keyboard (whose buttons all carry `country_`-prefixed callback data). -/
def start (st : BotState) (user_id : Nat) : BotState × List Reply :=
  (st, [.sent .welcome, .sent .chooseCountry])

/-- `/help` handler (src/bot.py:217–228). -/
def help_command (st : BotState) : BotState × List Reply :=
  (st, [.sent .helpText])

/-- `/times` handler (src/bot.py:150–164). -/
def times_command (api : ApiResult) (st : BotState) (user_id : Nat) :
    BotState × List Reply :=
  match List.lookup user_id st.user_locations with
  | none => (st, [.sent .noSavedLocation])
  | some location =>
    let fetched := fetch_and_send_times st api location.city location.country
    (fetched.1, .sent (.searchingSaved location.city location.country) :: fetched.2)

/-- `button_callback` (src/bot.py:166–180).  `query.answer()` only
acknowledges the callback; it is not a sent or edited message, so it is not a
`Reply`.  For a `country_`-prefixed payload, `query.data.split("_", 1)[1]` is
everything after the first underscore, i.e. the payload without its 8-character
prefix. -/
def button_callback (st : BotState) (user_id : Nat) (payload : String) :
    BotState × List Reply :=
  if pyStartswith payload "country_" then
    let country := String.mk (payload.data.drop 8)
    ({ st with users_awaiting_city := dictSet user_id country st.users_awaiting_city },
      [.edited (.chosenCountryAskCity country)])
  else
    (st, [])

/-- `handle_message` (src/bot.py:230–251): Python strips the text first
(`update.message.text.strip()`), then, if the user is awaiting a city, pops
the pending country, saves the location, replies, and fetches the times. -/
def handle_message (api : ApiResult) (st : BotState) (user_id : Nat) (text : String) :
    BotState × List Reply :=
  let city := pyStrip text
  match List.lookup user_id st.users_awaiting_city with
  | some country =>
    let st' : BotState :=
      { user_locations :=
          dictSet user_id { city := city, country := country } st.user_locations
        users_awaiting_city := dictDel user_id st.users_awaiting_city }
    let fetched := fetch_and_send_times st' api city country
    (fetched.1,
      .sent (.savedLocation city country) :: .sent (.searching city country) :: fetched.2)
  | none => (st, [.sent .useStartFirst])

/-- The hardcoded fallback token literal at src/bot.py:26. -/
def hardcodedDefaultToken : String := "8337412245:AAHEmWDg3EM2Hsu6aNgRWq45l1eAJXEJKSw"

/-- `BOT_TOKEN = os.environ.get("TELEGRAM_BOT_TOKEN", <hardcoded default>)`
(src/bot.py:26), as a function of the environment variable's value
(`none` = variable absent). -/
def BOT_TOKEN (env : Option String) : String :=
  env.getD hardcodedDefaultToken

/-- `main` (src/bot.py:254–274) builds the `Application` with `BOT_TOKEN`
unconditionally; it has no configuration-failure path.  The result is the
token the process starts with; `none` would model a refused startup, which
the code never produces. -/
def main_startup (env : Option String) : Option String :=
  some (BOT_TOKEN env)

/-! ## Helper lemmas -/

/-- A successful `strptime "%H:%M"` parse yields an hour in `0..23` and a
minute in `0..59`. -/
theorem parseHHMM_bounds {s : String} {h m : Nat}
    (hp : parseHHMM s = some (h, m)) : h ≤ 23 ∧ m ≤ 59 := by
  unfold parseHHMM at hp
  split at hp
  · rename_i hs ms heq
    rcases hA : parseField hs with _ | x
    · rw [hA] at hp
      exact absurd hp (by simp)
    rcases hB : parseField ms with _ | y
    · rw [hA, hB] at hp
      exact absurd hp (by simp)
    rw [hA, hB] at hp
    simp only [Option.bind_eq_bind, Option.some_bind, Option.pure_def] at hp
    split at hp
    · rename_i hcond
      simp only [Option.some.injEq, Prod.mk.injEq] at hp
      obtain ⟨rfl, rfl⟩ := hp
      exact hcond
    · exact absurd hp (by simp)
  · exact absurd hp (by simp)

/-- After `d[k] = v`, looking up `k` yields `v`. -/
theorem lookup_dictSet_self {α : Type} (k : Nat) (v : α) (d : List (Nat × α)) :
    List.lookup k (dictSet k v d) = some v := by
  simp [dictSet, List.lookup]

/-- After the entry for `k` is removed, looking up `k` yields nothing. -/
theorem lookup_dictDel_self {α : Type} (k : Nat) (d : List (Nat × α)) :
    List.lookup k (dictDel k d) = none := by
  induction d with
  | nil => rfl
  | cons p tl ih =>
    obtain ⟨a, b⟩ := p
    by_cases hk : a = k
    · subst hk
      simpa [dictDel, List.filter_cons] using ih
    · have hba : (k == a) = false := by
        simpa using Ne.symm hk
      have hab : (a != k) = true := by
        simpa using hk
      simpa [dictDel, List.filter_cons, hab, List.lookup, hba] using ih

/-- `fetch_and_send_times` never mutates the session state. -/
theorem fetch_state_eq (st : BotState) (api : ApiResult) (city country : String) :
    (fetch_and_send_times st api city country).1 = st := by
  cases hg : get_prayer_times api with
  | raised => simp [fetch_and_send_times, hg]
  | unavailable => simp [fetch_and_send_times, hg]
  | successNonMapping => simp [fetch_and_send_times, hg]
  | success t =>
    cases hc : calculate_times t with
    | none => simp [fetch_and_send_times, hg, hc]
    | some r => simp [fetch_and_send_times, hg, hc]

/-- On fully parsed inputs, `calculate_times` succeeds and every output field
is the formatting of the corresponding derived instant. -/
theorem calculate_times_parsed {sM sI sF : String} {mh mm ihh imm fh fm : Nat}
    (hm : parseHHMM sM = some (mh, mm)) (hi : parseHHMM sI = some (ihh, imm))
    (hf : parseHHMM sF = some (fh, fm)) :
    calculate_times { Maghrib := some sM, Isha := some sI, Fajr := some sF } =
      some { Maghrib := fmtHM (anchorTodayS mh mm)
             Isha := fmtHM (anchorTodayS ihh imm)
             Fajr := fmtHM (anchorTomorrowS fh fm)
             Night_Duration := fmtTimedelta (nightDurationS mh mm fh fm)
             Islamic_Midnight := fmtHM (islamicMidnightS mh mm fh fm)
             Wake_Up_Suggestion := fmtHM (islamicMidnightS mh mm fh fm)
             Sleep_Suggestion := fmtHM (sleepSuggestionS mh mm fh fm) } := by
  simp [calculate_times, hm, hi, hf]

/-! ## Claims -/

/-- C1: for the input mapping `{Maghrib: "18:00", Isha: "19:30",
Fajr: "04:30"}`, `calculate_times` returns a result whose `Night_Duration`
formats as `"10:30:00"`, `Islamic_Midnight` as `"23:15"`,
`Wake_Up_Suggestion` as `"23:15"`, and `Sleep_Suggestion` as `"02:45"`. -/
theorem C1_scenario :
    calculate_times { Maghrib := some "18:00", Isha := some "19:30", Fajr := some "04:30" } =
      some { Maghrib := "18:00", Isha := "19:30", Fajr := "04:30",
             Night_Duration := "10:30:00", Islamic_Midnight := "23:15",
             Wake_Up_Suggestion := "23:15", Sleep_Suggestion := "02:45" } := by
  rfl

/-- C2: for every input mapping whose Maghrib, Isha and Fajr values are valid
HH:MM strings and whose Fajr clock value is numerically earlier than
Maghrib's, the night duration computed by `calculate_times` (Fajr anchored to
the next day minus Maghrib anchored to the reference day) is strictly
positive and strictly below 24 hours, and the returned `Night_Duration` field
is its formatting. -/
theorem C2_night_duration_bounds (sM sI sF : String) (mh mm ihh imm fh fm : Nat)
    (hm : parseHHMM sM = some (mh, mm))
    (hi : parseHHMM sI = some (ihh, imm))
    (hf : parseHHMM sF = some (fh, fm))
    (hlt : 60 * fh + fm < 60 * mh + mm) :
    0 < nightDurationS mh mm fh fm ∧ nightDurationS mh mm fh fm < 86400 ∧
    ∃ r, calculate_times { Maghrib := some sM, Isha := some sI, Fajr := some sF } =
        some r ∧
      r.Night_Duration = fmtTimedelta (nightDurationS mh mm fh fm) := by
  obtain ⟨hm23, hm59⟩ := parseHHMM_bounds hm
  obtain ⟨hf23, hf59⟩ := parseHHMM_bounds hf
  refine ⟨?_, ?_, _, calculate_times_parsed hm hi hf, rfl⟩
  · simp only [nightDurationS, anchorTodayS, anchorTomorrowS]
    omega
  · simp only [nightDurationS, anchorTodayS, anchorTomorrowS]
    omega

theorem C2_night_duration_bounds_witness :
    (60 * 4 + 30 < 60 * 18 + 0) ∧
    (0 < nightDurationS 18 0 4 30 ∧ nightDurationS 18 0 4 30 < 86400 ∧
      ∃ r, calculate_times
          { Maghrib := some "18:00", Isha := some "19:30", Fajr := some "04:30" } =
          some r ∧
        r.Night_Duration = fmtTimedelta (nightDurationS 18 0 4 30)) :=
  ⟨by decide,
    C2_night_duration_bounds "18:00" "19:30" "04:30" 18 0 19 30 4 30 rfl rfl rfl
      (by decide)⟩

/-- C3: on every valid HH:MM triple with positive night duration, the
instants computed by `calculate_times` are strictly ordered
`Maghrib < IslamicMidnight < SleepSuggestion < Fajr`, and the returned fields
are the formattings of those instants. -/
theorem C3_strict_ordering (sM sI sF : String) (mh mm ihh imm fh fm : Nat)
    (hm : parseHHMM sM = some (mh, mm))
    (hi : parseHHMM sI = some (ihh, imm))
    (hf : parseHHMM sF = some (fh, fm))
    (hpos : 0 < nightDurationS mh mm fh fm) :
    anchorTodayS mh mm < islamicMidnightS mh mm fh fm ∧
    islamicMidnightS mh mm fh fm < sleepSuggestionS mh mm fh fm ∧
    sleepSuggestionS mh mm fh fm < anchorTomorrowS fh fm ∧
    ∃ r, calculate_times { Maghrib := some sM, Isha := some sI, Fajr := some sF } =
        some r ∧
      r.Islamic_Midnight = fmtHM (islamicMidnightS mh mm fh fm) ∧
      r.Sleep_Suggestion = fmtHM (sleepSuggestionS mh mm fh fm) := by
  obtain ⟨hm23, hm59⟩ := parseHHMM_bounds hm
  obtain ⟨hf23, hf59⟩ := parseHHMM_bounds hf
  refine ⟨?_, ?_, ?_, _, calculate_times_parsed hm hi hf, rfl, rfl⟩ <;>
    simp only [islamicMidnightS, sleepSuggestionS, nightDurationS, anchorTodayS,
      anchorTomorrowS] <;>
    omega

theorem C3_strict_ordering_witness :
    (0 < nightDurationS 18 0 4 30) ∧
    (anchorTodayS 18 0 < islamicMidnightS 18 0 4 30 ∧
      islamicMidnightS 18 0 4 30 < sleepSuggestionS 18 0 4 30 ∧
      sleepSuggestionS 18 0 4 30 < anchorTomorrowS 4 30 ∧
      ∃ r, calculate_times
          { Maghrib := some "18:00", Isha := some "19:30", Fajr := some "04:30" } =
          some r ∧
        r.Islamic_Midnight = fmtHM (islamicMidnightS 18 0 4 30) ∧
        r.Sleep_Suggestion = fmtHM (sleepSuggestionS 18 0 4 30)) :=
  ⟨by decide,
    C3_strict_ordering "18:00" "19:30" "04:30" 18 0 19 30 4 30 rfl rfl rfl (by decide)⟩

/-- C4: if any of the three keys is absent, or its value fails HH:MM parsing,
`calculate_times` returns the empty "no result" outcome (`none`, modelling
the `{}` the caught exception produces) rather than raising past its
boundary. -/
theorem C4_invalid_input_no_result (t : Timings)
    (h : Option.bind t.Maghrib parseHHMM = none ∨
         Option.bind t.Isha parseHHMM = none ∨
         Option.bind t.Fajr parseHHMM = none) :
    calculate_times t = none := by
  obtain ⟨a, b, c⟩ := t
  rcases a with _ | sa
  · simp [calculate_times]
  rcases b with _ | sb
  · simp [calculate_times]
  rcases c with _ | sc
  · rcases hA : parseHHMM sa with _ | x <;> simp [calculate_times, hA]
  simp only [Option.some_bind] at h
  rcases h with h | h | h
  · simp [calculate_times, h]
  · rcases hA : parseHHMM sa with _ | x <;> simp [calculate_times, h, hA]
  · rcases hA : parseHHMM sa with _ | x <;> rcases hB : parseHHMM sb with _ | y <;>
      simp [calculate_times, h, hA, hB]

theorem C4_invalid_input_no_result_witness :
    (Option.bind (some "18:00") parseHHMM = none ∨
      Option.bind (some "19:30") parseHHMM = none ∨
      Option.bind (none : Option String) parseHHMM = none) ∧
    calculate_times { Maghrib := some "18:00", Isha := some "19:30", Fajr := none } =
      none :=
  ⟨Or.inr (Or.inr rfl),
    C4_invalid_input_no_result
      { Maghrib := some "18:00", Isha := some "19:30", Fajr := none }
      (Or.inr (Or.inr rfl))⟩

/-- C9: every triple of parseable HH:MM values yields a non-empty result with
a strictly positive night duration — no guard rejects pathological inputs
where Fajr's clock value is at or after Maghrib's, and for those the next-day
anchoring makes the night duration 24 hours or more. -/
theorem C9_no_pathological_guard (sM sI sF : String) (mh mm ihh imm fh fm : Nat)
    (hm : parseHHMM sM = some (mh, mm))
    (hi : parseHHMM sI = some (ihh, imm))
    (hf : parseHHMM sF = some (fh, fm)) :
    0 < nightDurationS mh mm fh fm ∧
    (60 * mh + mm ≤ 60 * fh + fm → 86400 ≤ nightDurationS mh mm fh fm) ∧
    ∃ r, calculate_times { Maghrib := some sM, Isha := some sI, Fajr := some sF } =
        some r ∧
      r.Night_Duration = fmtTimedelta (nightDurationS mh mm fh fm) := by
  obtain ⟨hm23, hm59⟩ := parseHHMM_bounds hm
  obtain ⟨hf23, hf59⟩ := parseHHMM_bounds hf
  refine ⟨?_, ?_, _, calculate_times_parsed hm hi hf, rfl⟩ <;>
    simp only [nightDurationS, anchorTodayS, anchorTomorrowS] <;>
    omega

theorem C9_no_pathological_guard_witness :
    (0 < nightDurationS 4 0 20 0 ∧
      (60 * 4 + 0 ≤ 60 * 20 + 0 → 86400 ≤ nightDurationS 4 0 20 0) ∧
      ∃ r, calculate_times
          { Maghrib := some "04:00", Isha := some "05:00", Fajr := some "20:00" } =
          some r ∧
        r.Night_Duration = fmtTimedelta (nightDurationS 4 0 20 0)) :=
  C9_no_pathological_guard "04:00" "05:00" "20:00" 4 0 5 0 20 0 rfl rfl rfl

/-- C10: the Isha input influences only the echoed Isha field — two parseable
input mappings differing only in Isha produce outputs identical in every
other field. -/
theorem C10_isha_independence (sM sI1 sI2 sF : String)
    (mh mm i1h i1m i2h i2m fh fm : Nat)
    (hm : parseHHMM sM = some (mh, mm))
    (h1 : parseHHMM sI1 = some (i1h, i1m))
    (h2 : parseHHMM sI2 = some (i2h, i2m))
    (hf : parseHHMM sF = some (fh, fm)) :
    ∃ r1 r2,
      calculate_times { Maghrib := some sM, Isha := some sI1, Fajr := some sF } =
        some r1 ∧
      calculate_times { Maghrib := some sM, Isha := some sI2, Fajr := some sF } =
        some r2 ∧
      r1.Maghrib = r2.Maghrib ∧ r1.Fajr = r2.Fajr ∧
      r1.Night_Duration = r2.Night_Duration ∧
      r1.Islamic_Midnight = r2.Islamic_Midnight ∧
      r1.Wake_Up_Suggestion = r2.Wake_Up_Suggestion ∧
      r1.Sleep_Suggestion = r2.Sleep_Suggestion :=
  ⟨_, _, calculate_times_parsed hm h1 hf, calculate_times_parsed hm h2 hf,
    rfl, rfl, rfl, rfl, rfl, rfl⟩

theorem C10_isha_independence_witness :
    ∃ r1 r2,
      calculate_times { Maghrib := some "18:00", Isha := some "19:30", Fajr := some "04:30" } =
        some r1 ∧
      calculate_times { Maghrib := some "18:00", Isha := some "21:45", Fajr := some "04:30" } =
        some r2 ∧
      r1.Maghrib = r2.Maghrib ∧ r1.Fajr = r2.Fajr ∧
      r1.Night_Duration = r2.Night_Duration ∧
      r1.Islamic_Midnight = r2.Islamic_Midnight ∧
      r1.Wake_Up_Suggestion = r2.Wake_Up_Suggestion ∧
      r1.Sleep_Suggestion = r2.Sleep_Suggestion :=
  C10_isha_independence "18:00" "19:30" "21:45" "04:30" 18 0 19 30 21 45 4 30
    rfl rfl rfl rfl

/-- C5 counterexample: the handler stores `text.strip()`, not the sent text —
for the sent text `" Cairo "` (pending country Egypt) the saved location is
`{city := "Cairo", country := "Egypt"}`, whose city differs from the sent
text, refuting the claim that UserLocation maps the user to
`{city: the sent text, country: the pending country}`. -/
theorem C5_stored_city_is_stripped_counterexample :
    List.lookup 7 (handle_message ApiResult.netFailure ⟨[], [(7, "Egypt")]⟩ 7
        " Cairo ").1.user_locations =
      some { city := "Cairo", country := "Egypt" } ∧
    ({ city := "Cairo", country := "Egypt" } : Location) ≠
      { city := " Cairo ", country := "Egypt" } :=
  ⟨rfl, by decide⟩

/-- C5 (amended): when a user pending a city reply sends a city text, the
handler removes the user from the pending map and writes the location, so
afterwards the user's location is `{city := the sent text stripped of
surrounding whitespace, country := the pending country}`, the user is no
longer pending, and in particular is not in both maps. -/
theorem C5_city_reply_clears_pending (api : ApiResult) (st : BotState)
    (user_id : Nat) (text country : String)
    (h : List.lookup user_id st.users_awaiting_city = some country) :
    List.lookup user_id (handle_message api st user_id text).1.users_awaiting_city =
      none ∧
    List.lookup user_id (handle_message api st user_id text).1.user_locations =
      some { city := pyStrip text, country := country } ∧
    ¬(List.lookup user_id (handle_message api st user_id text).1.users_awaiting_city ≠
        none ∧
      List.lookup user_id (handle_message api st user_id text).1.user_locations ≠
        none) := by
  have hst : (handle_message api st user_id text).1 =
      { user_locations :=
          dictSet user_id { city := pyStrip text, country := country } st.user_locations
        users_awaiting_city := dictDel user_id st.users_awaiting_city } := by
    simp [handle_message, h, fetch_state_eq]
  refine ⟨?_, ?_, ?_⟩
  · rw [hst]
    exact lookup_dictDel_self user_id st.users_awaiting_city
  · rw [hst]
    exact lookup_dictSet_self user_id _ st.user_locations
  · intro hc
    exact hc.1 (by rw [hst]; exact lookup_dictDel_self user_id st.users_awaiting_city)

theorem C5_city_reply_clears_pending_witness :
    (List.lookup 7 ([(7, "Egypt")] : List (Nat × String)) = some "Egypt") ∧
    (List.lookup 7
        (handle_message ApiResult.netFailure ⟨[], [(7, "Egypt")]⟩ 7
            "Cairo").1.users_awaiting_city = none ∧
      List.lookup 7
        (handle_message ApiResult.netFailure ⟨[], [(7, "Egypt")]⟩ 7
            "Cairo").1.user_locations =
        some { city := pyStrip "Cairo", country := "Egypt" } ∧
      ¬(List.lookup 7
          (handle_message ApiResult.netFailure ⟨[], [(7, "Egypt")]⟩ 7
              "Cairo").1.users_awaiting_city ≠ none ∧
        List.lookup 7
          (handle_message ApiResult.netFailure ⟨[], [(7, "Egypt")]⟩ 7
              "Cairo").1.user_locations ≠ none)) :=
  ⟨rfl,
    C5_city_reply_clears_pending ApiResult.netFailure ⟨[], [(7, "Egypt")]⟩ 7
      "Cairo" "Egypt" rfl⟩

/-- C6 counterexample, refuting two of the claim's failure causes at
concrete inputs.  (1) An HTTP 300 response — not a 2xx status — whose body
does contain the nested timings mapping is returned as success, not the
unavailable signal: `get_prayer_times` only treats 4xx/5xx statuses as
failures.  (2) A 200 response whose decoded body is `{"data": 7}` — a body
lacking the nested timings field — makes `data["data"].get("timings")` raise
an uncaught `AttributeError` instead of returning the unavailable signal. -/
theorem C6_failure_signal_counterexample :
    (¬(200 ≤ 300 ∧ 300 ≤ 299)) ∧
    get_prayer_times (ApiResult.response 300 (ApiBody.dict (DataField.dict
        (TimingsField.timings
          { Maghrib := some "18:00", Isha := some "19:30", Fajr := some "04:30" })))) =
      FetchResult.success
        { Maghrib := some "18:00", Isha := some "19:30", Fajr := some "04:30" } ∧
    get_prayer_times (ApiResult.response 200 (ApiBody.dict DataField.truthyNonDict)) =
      FetchResult.raised :=
  ⟨by decide, rfl, rfl⟩

/-- C6 (amended): `get_prayer_times` returns the unavailable signal on
network failure, on 4xx/5xx responses, and on a body that is malformed JSON,
falsy, or a dict whose `"data"` entry is absent/falsy or is a dict whose
`"timings"` entry is absent/falsy; on that signal the controller emits
exactly the InputUnavailable message and leaves the session state unchanged.
A truthy non-dict body, or a truthy non-dict `"data"` value, instead raises
an uncaught `AttributeError` past the provider's boundary (when no 4xx/5xx
status short-circuits first). -/
theorem C6_unavailable_behaviour (api : ApiResult) (st : BotState)
    (city country : String) (status : Nat) (body : ApiBody)
    (h4 : 400 ≤ status) (h6 : status < 600) :
    get_prayer_times ApiResult.netFailure = FetchResult.unavailable ∧
    get_prayer_times (ApiResult.response status body) = FetchResult.unavailable ∧
    (∀ s, get_prayer_times (ApiResult.response s ApiBody.malformed) =
      FetchResult.unavailable) ∧
    (∀ s, get_prayer_times (ApiResult.response s ApiBody.falsyTop) =
      FetchResult.unavailable) ∧
    (∀ s, get_prayer_times (ApiResult.response s (ApiBody.dict DataField.missingOrFalsy)) =
      FetchResult.unavailable) ∧
    (∀ s, get_prayer_times
      (ApiResult.response s (ApiBody.dict (DataField.dict TimingsField.missingOrFalsy))) =
      FetchResult.unavailable) ∧
    (∀ s, ¬(400 ≤ s ∧ s < 600) →
      get_prayer_times (ApiResult.response s ApiBody.truthyNonDict) =
        FetchResult.raised) ∧
    (∀ s, ¬(400 ≤ s ∧ s < 600) →
      get_prayer_times (ApiResult.response s (ApiBody.dict DataField.truthyNonDict)) =
        FetchResult.raised) ∧
    (get_prayer_times api = FetchResult.unavailable →
      fetch_and_send_times st api city country =
        (st, [Reply.sent (Msg.unavailable city country)])) := by
  refine ⟨rfl, ?_, ?_, ?_, ?_, ?_, ?_, ?_, ?_⟩
  · simp [get_prayer_times, h4, h6]
  · intro s
    by_cases hs : 400 ≤ s ∧ s < 600 <;> simp [get_prayer_times, hs]
  · intro s
    by_cases hs : 400 ≤ s ∧ s < 600 <;> simp [get_prayer_times, hs]
  · intro s
    by_cases hs : 400 ≤ s ∧ s < 600 <;> simp [get_prayer_times, hs]
  · intro s
    by_cases hs : 400 ≤ s ∧ s < 600 <;> simp [get_prayer_times, hs]
  · intro s hs
    simp [get_prayer_times, hs]
  · intro s hs
    simp [get_prayer_times, hs]
  · intro hnone
    simp [fetch_and_send_times, hnone]

theorem C6_unavailable_behaviour_witness :
    (400 ≤ 404) ∧ (404 < 600) ∧ (¬(400 ≤ 200 ∧ 200 < 600)) ∧
    get_prayer_times ApiResult.netFailure = FetchResult.unavailable ∧
    get_prayer_times (ApiResult.response 404 ApiBody.malformed) =
      FetchResult.unavailable ∧
    get_prayer_times (ApiResult.response 200 ApiBody.truthyNonDict) =
      FetchResult.raised ∧
    fetch_and_send_times ⟨[], []⟩ ApiResult.netFailure "Cairo" "Egypt" =
      (⟨[], []⟩, [Reply.sent (Msg.unavailable "Cairo" "Egypt")]) := by
  have h := C6_unavailable_behaviour ApiResult.netFailure ⟨[], []⟩ "Cairo" "Egypt"
    404 ApiBody.malformed (by decide) (by decide)
  exact ⟨by decide, by decide, by decide, h.1, h.2.2.1 404,
    h.2.2.2.2.2.2.1 200 (by decide), h.2.2.2.2.2.2.2.2 h.1⟩

/-- C7 counterexample: for a callback payload that does not start with
`country_`, the button handler sends or edits no message at all (it only
acknowledges the callback), refuting "produces a reply for every callback
payload it may receive". -/
theorem C7_no_reply_counterexample :
    (button_callback { user_locations := [], users_awaiting_city := [] } 0 "hello").2 =
      [] := by
  rfl

/-- C7 (amended): the command handlers and the freeform-text handler always
produce at least one reply, and the button-press handler produces a reply for
every payload starting with `country_` — which covers every payload carried
by the keyboards the bot creates — while other payloads produce none. -/
theorem C7_handlers_reply (api : ApiResult) (st : BotState) (user_id : Nat)
    (text payload : String)
    (hp : pyStartswith payload "country_" = true) :
    (start st user_id).2 ≠ [] ∧
    (help_command st).2 ≠ [] ∧
    (times_command api st user_id).2 ≠ [] ∧
    (handle_message api st user_id text).2 ≠ [] ∧
    (button_callback st user_id payload).2 ≠ [] := by
  refine ⟨by simp [start], by simp [help_command], ?_, ?_, ?_⟩
  · cases hl : List.lookup user_id st.user_locations with
    | none => simp [times_command, hl]
    | some loc => simp [times_command, hl]
  · cases hl : List.lookup user_id st.users_awaiting_city with
    | none => simp [handle_message, hl]
    | some country => simp [handle_message, hl]
  · simp [button_callback, hp]

theorem C7_handlers_reply_witness :
    (pyStartswith "country_Egypt" "country_" = true) ∧
    ((start ⟨[], []⟩ 0).2 ≠ [] ∧
      (help_command ⟨[], []⟩).2 ≠ [] ∧
      (times_command ApiResult.netFailure ⟨[], []⟩ 0).2 ≠ [] ∧
      (handle_message ApiResult.netFailure ⟨[], []⟩ 0 "hi").2 ≠ [] ∧
      (button_callback ⟨[], []⟩ 0 "country_Egypt").2 ≠ []) :=
  ⟨by decide,
    C7_handlers_reply ApiResult.netFailure ⟨[], []⟩ 0 "hi" "country_Egypt" (by decide)⟩

/-- C8: with `TELEGRAM_BOT_TOKEN` absent from the environment, the program
does not fail at startup — `BOT_TOKEN` falls back to the token literal
hardcoded at src/bot.py:26 and `main` proceeds with it, contradicting the
claim (and the source's own comments) that the token is supplied only
externally and its absence is a fatal configuration error. -/
theorem C8_hardcoded_token_fallback :
    BOT_TOKEN none = hardcodedDefaultToken ∧
    main_startup none = some hardcodedDefaultToken ∧
    main_startup none ≠ none :=
  ⟨rfl, rfl, by simp [main_startup]⟩

end Bot
